import Mathlib

/-!
Verification development for the PILS-CLIENTSIDE story-box controller
(`src/2architecture`).  The controller state machine (`main.py`), the
duration selector (`hardware/selector.py`), the timeline segment selection
(`services/led_patterns.py`) and the group partition computation
(`services/led_patterns.py`) are shallowly embedded below.  Python floats
are modelled by `ℚ`, dictionaries with fixed keys by structures or
association lists, and side effects (prompts, LED commands, audio
commands) by an explicit list of `Effect` values returned next to the
updated controller record.
-/

unseal Rat.add Rat.sub Rat.mul Rat.inv Rat.ofScientific

namespace StoryBox

/-- Device states, from `domain/states.py` (`StoryBoxState`). -/
inductive StoryBoxState where
  | BOOTING
  | WAITING_NETWORK
  | IDLE_READY
  | PREPARING_STORY
  | REQUESTING_STORY
  | PLAYING_STORY
  | PAUSED
  | CONFIRM_STOP
deriving DecidableEq, Repr

/-- RGB triple, from `services/led_patterns.py` (`Color`). -/
abbrev Color : Type := Nat × Nat × Nat

/-- Session record, from `domain/story_session.py` (`StorySession`).
The unused `led_pattern` field is omitted.  The source comment documents
`duration_mode` as one of "short" / "medium" / "long". -/
structure StorySession where
  characters : List String := []
  duration_mode : String := "medium"
  story_audio_path : Option String := none
deriving DecidableEq, Repr

/-- Character info returned by the story provider, from
`services/api_client.py` (name plus optional group color). -/
structure CharacterInfo where
  name : String
  group_color : Option Color := none

/-- The `_reader_active_tags` dictionary of `main.py`: its keys are fixed
at construction to exactly `reader1`..`reader4`, so it is embedded as a
record with one optional held tag per reader. -/
structure Slots where
  reader1 : Option Nat := none
  reader2 : Option Nat := none
  reader3 : Option Nat := none
  reader4 : Option Nat := none
deriving DecidableEq, Repr

/-- Keyed dictionary access on `_reader_active_tags`: `none` models a
missing key (unknown reader id). -/
def slotGet (s : Slots) (readerId : String) : Option (Option Nat) :=
  if readerId = "reader1" then some s.reader1
  else if readerId = "reader2" then some s.reader2
  else if readerId = "reader3" then some s.reader3
  else if readerId = "reader4" then some s.reader4
  else none

/-- Keyed dictionary assignment on `_reader_active_tags`; assignments only
ever target the four existing keys. -/
def slotSet (s : Slots) (readerId : String) (v : Option Nat) : Slots :=
  if readerId = "reader1" then { s with reader1 := v }
  else if readerId = "reader2" then { s with reader2 := v }
  else if readerId = "reader3" then { s with reader3 := v }
  else if readerId = "reader4" then { s with reader4 := v }
  else s

/-- `self._reader_active_tags.get(reader_id)`: `None` both for a missing
key and for an empty slot. -/
def slotHeld (s : Slots) (readerId : String) : Option Nat :=
  (slotGet s readerId).join

/-- External collaborators of the controller: the duration-selector pin
levels (`true` = GPIO.HIGH) and the story provider's character lookup. -/
structure Env where
  sel_s1 : Bool
  sel_s2 : Bool
  getCharacter : Nat → Option CharacterInfo

/-- `DurationSelector.read_mode` from `hardware/selector.py`:
SW1 LOW / SW2 HIGH is "short", HIGH/HIGH "medium", HIGH/LOW "long",
anything else "unknown". -/
def read_mode_pins (s1 s2 : Bool) : String :=
  if s1 = false ∧ s2 = true then "short"
  else if s1 = true ∧ s2 = true then "medium"
  else if s1 = true ∧ s2 = false then "long"
  else "unknown"

/-- The selector reading seen by the controller via
`self._duration_selector.read_mode()`. -/
def read_mode (env : Env) : String :=
  read_mode_pins env.sel_s1 env.sel_s2

/-- Observable commands issued by the controller to the lighting engine,
the playback facade and the prompt player. -/
inductive Effect where
  | ledApplyState (s : StoryBoxState)
  | ledEvent (eventName : String)
  | ledSetGroupColor (groupIndex : Nat) (color : Color)
  | ledClearGroupColor (groupIndex : Nat)
  | ledClearTimeline
  | audioPlay (path : String)
  | audioPause
  | audioResume
  | audioStop
  | prompt (category eventName : String)
  | spawnStoryRequest
deriving DecidableEq, Repr

/-- Controller record, from `StoryBoxController.__init__` in `main.py`. -/
structure Controller where
  state : StoryBoxState
  session : StorySession
  pendingStopConfirm : Bool := false
  tagNames : List (Nat × String) := []
  tagColors : List (Nat × Color) := []
  slots : Slots := {}
deriving DecidableEq, Repr

/-- `self._reader_to_group` of `main.py`, in dictionary insertion order. -/
def readerToGroup : List (String × Nat) :=
  [("reader1", 2), ("reader2", 3), ("reader3", 1), ("reader4", 0)]

/-- `self._group_highlight_colors` of `main.py`. -/
def groupHighlightColors : List Color :=
  [(255, 120, 30), (120, 220, 120), (80, 160, 255), (200, 120, 255)]

/-- Insertion step for the stable ascending sort by group index used in
`_update_preparing_feedback` (`sorted(..., key=lambda item: item[1])`). -/
def insertByGroup (p : String × Nat) : List (String × Nat) → List (String × Nat)
  | [] => [p]
  | q :: rest => if p.2 ≤ q.2 then p :: q :: rest else q :: insertByGroup p rest

/-- Insertion sort by group index. -/
def sortByGroup : List (String × Nat) → List (String × Nat)
  | [] => []
  | p :: rest => insertByGroup p (sortByGroup rest)

/-- `sorted(self._reader_to_group.items(), key=lambda item: item[1])`. -/
def orderedGroups : List (String × Nat) := sortByGroup readerToGroup

/-- `StoryBoxController._set_state`: no-op when the state is unchanged,
otherwise record the new state and re-apply the LED state pattern. -/
def set_state (c : Controller) (newState : StoryBoxState) :
    Controller × List Effect :=
  if newState = c.state then (c, [])
  else ({ c with state := newState }, [.ledApplyState newState])

/-- `StoryBoxController._play_system_prompt`: while a story is playing
the requested prompt is replaced by the fixed ("system", "error") event. -/
def play_system_prompt (c : Controller) (category eventName : String) :
    List Effect :=
  if c.state = StoryBoxState.PLAYING_STORY then [.prompt "system" "error"]
  else [.prompt category eventName]

/-- `StoryBoxController._character_name`: cached name if present, else the
provider lookup (caching name and color on success), else the fallback
`char_<id>` (not cached). -/
def character_name (env : Env) (c : Controller) (tagId : Nat) :
    String × Controller :=
  match c.tagNames.lookup tagId with
  | some n => (n, c)
  | none =>
    match env.getCharacter tagId with
    | some info =>
      (info.name,
        { c with
          tagNames := (tagId, info.name) :: c.tagNames
          tagColors :=
            match info.group_color with
            | some col => (tagId, col) :: c.tagColors
            | none => c.tagColors })
    | none => ("char_" ++ toString tagId, c)

/-- Loop body of `_update_preparing_feedback`: walk the readers in
ascending group order; a held slot sets that group's color (cached tag
color, else the palette default) and appends the resolved character name;
an empty slot clears the group color.  Returns the updated controller
(name/color caches may grow), the LED effects and the collected names. -/
def feedbackLoop (env : Env) :
    List (String × Nat) → Controller → Controller × List Effect × List String
  | [], c => (c, [], [])
  | (readerId, groupIndex) :: rest, c =>
    match slotHeld c.slots readerId with
    | some tagId =>
      let color :=
        match c.tagColors.lookup tagId with
        | some col => col
        | none =>
          groupHighlightColors.getD (groupIndex % groupHighlightColors.length)
            (0, 0, 0)
      let nc := character_name env c tagId
      let r := feedbackLoop env rest nc.2
      (r.1, .ledSetGroupColor groupIndex color :: r.2.1, nc.1 :: r.2.2)
    | none =>
      let r := feedbackLoop env rest c
      (r.1, .ledClearGroupColor groupIndex :: r.2.1, r.2.2)

/-- `StoryBoxController._update_preparing_feedback`: outside
PREPARING_STORY it does nothing; inside it rebuilds the LED group colors
and replaces `session.characters` with the recomputed list. -/
def update_preparing_feedback (env : Env) (c : Controller) :
    Controller × List Effect :=
  if c.state = StoryBoxState.PREPARING_STORY then
    let r := feedbackLoop env orderedGroups c
    ({ r.1 with session := { r.1.session with characters := r.2.2 } }, r.2.1)
  else (c, [])

/-- `StoryBoxController.on_tag_detected`: unknown readers are ignored;
the slot is always updated; outside PREPARING_STORY nothing else happens;
inside, the character is resolved, its name prompt plays when the tag is
new on that slot, and the feedback is recomputed. -/
def on_tag_detected (env : Env) (c : Controller) (readerId : String)
    (tagId : Nat) : Controller × List Effect :=
  match slotGet c.slots readerId with
  | none => (c, [])
  | some previous =>
    let c1 := { c with slots := slotSet c.slots readerId (some tagId) }
    if c1.state ≠ StoryBoxState.PREPARING_STORY then (c1, [])
    else
      let nc := character_name env c1 tagId
      let fxPrompt :=
        if previous ≠ some tagId then
          play_system_prompt nc.2 "characters" nc.1
        else []
      let r := update_preparing_feedback env nc.2
      (r.1, fxPrompt ++ r.2)

/-- `StoryBoxController.on_tag_removed`: unknown readers and already-empty
slots return early; otherwise the slot is cleared; outside
PREPARING_STORY nothing else happens (log only); inside, the "tag
removed" prompt plays and the feedback is recomputed. -/
def on_tag_removed (env : Env) (c : Controller) (readerId : String) :
    Controller × List Effect :=
  match slotGet c.slots readerId with
  | none => (c, [])
  | some none => (c, [])
  | some (some _) =>
    let c1 := { c with slots := slotSet c.slots readerId none }
    if c1.state ≠ StoryBoxState.PREPARING_STORY then (c1, [])
    else
      let fxPrompt := play_system_prompt c1 "system" "tag_removed"
      let r := update_preparing_feedback env c1
      (r.1, fxPrompt ++ r.2)

/-- `StoryBoxController.on_duration_change`: store the mode and play a
prompt named after it. -/
def on_duration_change (c : Controller) (mode : String) :
    Controller × List Effect :=
  let c1 := { c with session := { c.session with duration_mode := mode } }
  (c1, play_system_prompt c1 "system" mode)

/-- One pass of the `DurationSelector.start` polling loop: the callback
fires only when the freshly read mode differs from the last one and is
not "unknown"; returns the notified mode, if any. -/
def selector_poll_notify (lastMode : String) (s1 s2 : Bool) : Option String :=
  let mode := read_mode_pins s1 s2
  if mode ≠ lastMode ∧ mode ≠ "unknown" then some mode else none

/-- `StoryBoxController.start_preparing`: enter PREPARING_STORY, read the
selector into the session, play the "preparing" prompt and replay the
feedback from any tags already held. -/
def start_preparing (env : Env) (c : Controller) : Controller × List Effect :=
  let s := set_state c StoryBoxState.PREPARING_STORY
  let c1 :=
    { s.1 with session := { s.1.session with duration_mode := read_mode env } }
  let fxPrompt := play_system_prompt c1 "system" "preparing_story"
  let r := update_preparing_feedback env c1
  (r.1, s.2 ++ fxPrompt ++ r.2)

/-- Synchronous part of `StoryBoxController.request_story`: invalid state
is a no-op; an empty character list plays the "no characters" prompt and
stays put; otherwise the state becomes REQUESTING_STORY and the
asynchronous request worker is spawned. -/
def request_story (_env : Env) (c : Controller) : Controller × List Effect :=
  if c.state ≠ StoryBoxState.PREPARING_STORY then (c, [])
  else if c.session.characters = [] then
    (c, play_system_prompt c "system" "no_characters")
  else
    let s := set_state c StoryBoxState.REQUESTING_STORY
    (s.1, s.2 ++ [.spawnStoryRequest])

/-- `StoryBoxController.pause_story`: only valid while playing. -/
def pause_story (c : Controller) : Controller × List Effect :=
  if c.state ≠ StoryBoxState.PLAYING_STORY then (c, [])
  else
    let s := set_state c StoryBoxState.PAUSED
    (s.1, s.2 ++ [.audioPause])

/-- `StoryBoxController.resume_story`: valid from PAUSED or CONFIRM_STOP;
clears the pending-stop flag and resumes playback. -/
def resume_story (c : Controller) : Controller × List Effect :=
  if c.state ≠ StoryBoxState.PAUSED ∧ c.state ≠ StoryBoxState.CONFIRM_STOP then
    (c, [])
  else
    let c1 := { c with pendingStopConfirm := false }
    let s := set_state c1 StoryBoxState.PLAYING_STORY
    (s.1, s.2 ++ [.audioResume])

/-- `StoryBoxController.stop_story_and_reset`: stop playback, clear the
timeline, reset the session, reread the duration mode, pass through
IDLE_READY and immediately start preparing again. -/
def stop_story_and_reset (env : Env) (c : Controller) :
    Controller × List Effect :=
  let c1 :=
    { c with
      session :=
        { characters := [], duration_mode := read_mode env
          story_audio_path := none }
      pendingStopConfirm := false }
  let s := set_state c1 StoryBoxState.IDLE_READY
  let r := start_preparing env s.1
  (r.1, .audioStop :: .ledClearTimeline :: (s.2 ++ r.2))

/-- `StoryBoxController.on_story_finished`: like `stop_story_and_reset`
but without stopping the (already finished) playback. -/
def on_story_finished (env : Env) (c : Controller) :
    Controller × List Effect :=
  let c1 :=
    { c with
      session :=
        { characters := [], duration_mode := read_mode env
          story_audio_path := none }
      pendingStopConfirm := false }
  let s := set_state c1 StoryBoxState.IDLE_READY
  let r := start_preparing env s.1
  (r.1, .ledClearTimeline :: (s.2 ++ r.2))

/-- `StoryBoxController.on_rotary_click`: always triggers the play-button
LED flash, then dispatches on the state: PREPARING_STORY requests a
story, PLAYING_STORY pauses, PAUSED or CONFIRM_STOP resumes, anything
else is ignored. -/
def on_rotary_click (env : Env) (c : Controller) : Controller × List Effect :=
  let fx0 : List Effect := [.ledEvent "play_button_press"]
  if c.state = StoryBoxState.PREPARING_STORY then
    let r := request_story env c
    (r.1, fx0 ++ r.2)
  else if c.state = StoryBoxState.PLAYING_STORY then
    let r := pause_story c
    (r.1, fx0 ++ r.2)
  else if c.state = StoryBoxState.PAUSED ∨ c.state = StoryBoxState.CONFIRM_STOP then
    let r := resume_story c
    (r.1, fx0 ++ r.2)
  else (c, fx0)

/-- `StoryBoxController.on_stop_button`: always triggers the stop-button
LED flash; from PLAYING_STORY or PAUSED a first press pauses and asks for
confirmation, a second (pending) press stops; from CONFIRM_STOP it stops;
elsewhere it only plays an explanation prompt. -/
def on_stop_button (env : Env) (c : Controller) : Controller × List Effect :=
  let fx0 : List Effect := [.ledEvent "stop_button_press"]
  if c.state = StoryBoxState.PLAYING_STORY ∨ c.state = StoryBoxState.PAUSED then
    if c.pendingStopConfirm = false then
      let c1 := { c with pendingStopConfirm := true }
      let p := pause_story c1
      let s := set_state p.1 StoryBoxState.CONFIRM_STOP
      let fxPrompt := play_system_prompt s.1 "system" "stop_story"
      (s.1, fx0 ++ p.2 ++ s.2 ++ fxPrompt)
    else
      let r := stop_story_and_reset env c
      (r.1, fx0 ++ r.2)
  else if c.state = StoryBoxState.CONFIRM_STOP then
    let r := stop_story_and_reset env c
    (r.1, fx0 ++ r.2)
  else (c, fx0 ++ play_system_prompt c "system" "stop_button_explain")

/-- One timeline segment, from `services/story_led_timeline.py`
(`StoryLedSegment`); `duration` is `max 0 (end − start)` when an end time
is present (the raw `end` field is not read by segment selection). -/
structure Segment where
  start : ℚ
  pattern_id : String
  duration : Option ℚ := none
deriving DecidableEq, Repr

/-- Segment construction in `load_story_led_timeline` from a start and an
end time: both are clamped to ≥ 0 and the duration is their clamped
difference. -/
def segOfStartEnd (startTime endTime : ℚ) (patternId : String) : Segment :=
  { start := max 0 startTime
    pattern_id := patternId
    duration := some (max 0 (max 0 endTime - max 0 startTime)) }

/-- A loaded timeline handed to `ScriptedTimelinePattern`: the segment
list plus the optional fallback pattern id. -/
structure Timeline where
  segments : List Segment
  fallback_pattern_id : Option String := none

/-- `ScriptedTimelinePattern._current_time`: a missing or failing reading
counts as 0 and negative positions are clamped to 0. -/
def current_time (value : Option ℚ) : ℚ :=
  match value with
  | none => 0
  | some v => max 0 v

/-- `ScriptedTimelinePattern._segment_end` expressed on the segment and
the remaining list: the explicit duration end if present, else the next
segment's start, else open-ended. -/
def segEndOf (s : Segment) (rest : List Segment) : Option ℚ :=
  match s.duration with
  | some d => some (s.start + d)
  | none =>
    match rest with
    | next :: _ => some next.start
    | [] => none

/-- Loop of `ScriptedTimelinePattern._select_segment_index`: a position
before the current segment's start returns 0 when at index 0 and is
skipped otherwise; a position inside `[start, end)` (or past the start of
an open-ended segment) returns that index; `none` models falling out of
the `for` loop. -/
def selectAux (t : ℚ) : List Segment → Nat → Option Nat
  | [], _ => none
  | s :: rest, idx =>
    if t < s.start then
      if idx = 0 then some 0 else selectAux t rest (idx + 1)
    else
      match segEndOf s rest with
      | none => some idx
      | some e => if t < e then some idx else selectAux t rest (idx + 1)

/-- `ScriptedTimelinePattern._select_segment_index`: `none` only for an
empty segment list; falling out of the loop yields the last index. -/
def select_segment_index (segs : List Segment) (t : ℚ) : Option Nat :=
  match segs with
  | [] => none
  | _ =>
    match selectAux t segs 0 with
    | some i => some i
    | none => some (segs.length - 1)

/-- The pattern ids accepted by `create_pattern`
(`_PATTERN_BUILDERS` in `services/led_patterns.py`). -/
def knownPatternIds : List String :=
  ["loading_blue_cycle", "story_pulse", "flash", "flash_play_button",
   "flash_stop_button", "flash_internet_connected", "preparing_group_cycle"]

/-- What a frame displays: a timeline segment, the fallback pattern, or
all-black pixels. -/
inductive RenderChoice where
  | segment (i : Nat)
  | fallback
  | black
deriving DecidableEq, Repr

/-- Decision structure of `ScriptedTimelinePattern.render`: no selected
segment (empty list) or a failed pattern build falls back to the fallback
pattern when configured, else black; otherwise the selected segment's
pattern is rendered.  (The per-frame caching of the built pattern is
transparent to which segment is displayed when construction succeeds.) -/
def renderChoice (tl : Timeline) (position : Option ℚ) : RenderChoice :=
  match select_segment_index tl.segments (current_time position) with
  | none =>
    if tl.fallback_pattern_id.isSome then RenderChoice.fallback
    else RenderChoice.black
  | some i =>
    match tl.segments.get? i with
    | none => RenderChoice.black
    | some s =>
      if s.pattern_id ∈ knownPatternIds then RenderChoice.segment i
      else if tl.fallback_pattern_id.isSome then RenderChoice.fallback
      else RenderChoice.black

/-- Python's `round` (banker's rounding, half to even) on an exact
rational, as used in `GroupCyclePattern.on_reset`. -/
def pythonRound (q : ℚ) : ℤ :=
  let f := q.floor
  let r := q - (f : ℚ)
  if r < 1 / 2 then f
  else if 1 / 2 < r then f + 1
  else if f % 2 = 0 then f else f + 1

/-- Loop of `GroupCyclePattern.on_reset`: each group targets
`max 1 (round (length * scale))` pixels, capped so one pixel stays
available per remaining group; the final group absorbs all remaining
pixels; ranges are `[start, stop)` with `stop = min pixelCount
(start + target)`. -/
def gcLoop (pixelCount : ℤ) (scale : ℚ) :
    List ℤ → ℤ → ℤ → ℤ → List (ℤ × ℤ)
  | [], _, _, _ => []
  | length :: rest, cursor, remainingPixels, remainingGroups =>
    let rg := remainingGroups - 1
    let target0 := max 1 (pythonRound ((length : ℚ) * scale))
    let target := if rg = 0 then remainingPixels
      else min target0 (remainingPixels - rg)
    let stop := min pixelCount (cursor + target)
    (cursor, stop) :: gcLoop pixelCount scale rest stop (max 0 (pixelCount - stop)) rg

/-- `GroupCyclePattern.on_reset`: empty when the configured lengths sum to
nothing or there are no pixels; otherwise the scaled ranges with empty
ranges dropped. -/
def group_cycle_ranges (baseLengths : List ℤ) (pixelCount : ℕ) :
    List (ℤ × ℤ) :=
  let total := baseLengths.sum
  if total ≤ 0 ∨ pixelCount = 0 then []
  else
    let scale : ℚ := (pixelCount : ℚ) / (total : ℚ)
    let indices :=
      gcLoop (pixelCount : ℤ) scale baseLengths 0 (pixelCount : ℤ)
        (baseLengths.length : ℤ)
    indices.filter (fun g => g.1 < g.2)

/-- Specification-level character resolution: the provider's name when
the lookup succeeds, else the deterministic fallback `char_<id>`. -/
def nameOf (env : Env) (tagId : Nat) : String :=
  match env.getCharacter tagId with
  | some info => info.name
  | none => "char_" ++ toString tagId

/-- Specification-level active character list: the resolved names of the
tags on currently-held readers, in ascending configured group order. -/
def heldNames (env : Env) (s : Slots) : List String :=
  orderedGroups.filterMap (fun p => (slotHeld s p.1).map (nameOf env))

/-- The name cache only ever holds names the provider actually returned,
so every cached entry agrees with `nameOf`. -/
def cacheOk (env : Env) (c : Controller) : Prop :=
  ∀ t n, c.tagNames.lookup t = some n → n = nameOf env t

/-- No reader currently holds a tag. -/
def noTagsHeld (s : Slots) : Prop :=
  s.reader1 = none ∧ s.reader2 = none ∧ s.reader3 = none ∧ s.reader4 = none

/-- Specification of the amended primary-control-press claim, written
from its words: PREPARING_STORY invokes request-story; PLAYING_STORY
pauses playback and moves to PAUSED with no prompt; PAUSED or
CONFIRM_STOP clears the pending-stop flag and resumes; every other state
changes neither state nor session (only the button-press LED flash
fires). -/
def rotaryClickSpec (env : Env) (c : Controller) : Controller × List Effect :=
  match c.state with
  | StoryBoxState.PREPARING_STORY =>
    let r := request_story env c
    (r.1, Effect.ledEvent "play_button_press" :: r.2)
  | StoryBoxState.PLAYING_STORY =>
    ({ c with state := StoryBoxState.PAUSED },
      [.ledEvent "play_button_press", .ledApplyState StoryBoxState.PAUSED,
        .audioPause])
  | StoryBoxState.PAUSED =>
    ({ c with
        pendingStopConfirm := false
        state := StoryBoxState.PLAYING_STORY },
      [.ledEvent "play_button_press",
        .ledApplyState StoryBoxState.PLAYING_STORY, .audioResume])
  | StoryBoxState.CONFIRM_STOP =>
    ({ c with
        pendingStopConfirm := false
        state := StoryBoxState.PLAYING_STORY },
      [.ledEvent "play_button_press",
        .ledApplyState StoryBoxState.PLAYING_STORY, .audioResume])
  | _ => (c, [.ledEvent "play_button_press"])

/-- A segment's interval contains the position: `start ≤ t` and `t` is
strictly below the segment end when one exists. -/
def segContains (s : Segment) (rest : List Segment) (t : ℚ) : Bool :=
  decide (s.start ≤ t) &&
    (match segEndOf s rest with
     | none => true
     | some e => decide (t < e))

/-- Index of the first segment whose interval contains the position. -/
def findContainingIdx (t : ℚ) : List Segment → Nat → Option Nat
  | [], _ => none
  | s :: rest, idx =>
    if segContains s rest t then some idx
    else findContainingIdx t rest (idx + 1)

/-- Specification of the amended segment-selection claim, written from
its words: a position before the first segment's start selects the first
segment; otherwise the first segment whose `[start, end)` interval
contains the position is selected; when no interval contains the
position, the last segment is selected. -/
def selectSpecFn : List Segment → ℚ → Option Nat
  | [], _ => none
  | s0 :: rest, t =>
    if t < s0.start then some 0
    else
      match findContainingIdx t (s0 :: rest) 0 with
      | some j => some j
      | none => some ((s0 :: rest).length - 1)

/-- Tag reader events, from the hardware event contract. -/
inductive TagEvent where
  | detected (readerId : String) (tagId : Nat)
  | removed (readerId : String)

/-- A provider environment whose character lookup always fails and whose
selector reads "medium" (SW1 HIGH, SW2 HIGH). -/
def env0 : Env :=
  { sel_s1 := true, sel_s2 := true, getCharacter := fun _ => none }

/-- An environment with an invalid selector reading: both switch inputs
LOW, which `read_mode` maps to "unknown". -/
def envBad : Env :=
  { sel_s1 := false, sel_s2 := false, getCharacter := fun _ => none }

/-- A controller resting in IDLE_READY with a fresh session. -/
def cIdle : Controller :=
  { state := StoryBoxState.IDLE_READY, session := {} }

/-- A controller playing a story with no tags held. -/
def cPlaying : Controller :=
  { state := StoryBoxState.PLAYING_STORY
    session := { story_audio_path := some "epic.mp3" } }

/-- A controller playing a story while reader1 still holds tag 7. -/
def cPlayingHeld : Controller :=
  { state := StoryBoxState.PLAYING_STORY
    session := { story_audio_path := some "epic.mp3" }
    slots := { reader1 := some 7 } }

/-- A controller in PREPARING_STORY with no tags held. -/
def cPrepEmpty : Controller :=
  { state := StoryBoxState.PREPARING_STORY, session := {} }

/-- A controller in PREPARING_STORY where reader1 holds tag 7 and the
active character list reflects that. -/
def cPrepHeld : Controller :=
  { state := StoryBoxState.PREPARING_STORY
    session := { characters := ["char_7"] }
    slots := { reader1 := some 7 } }

/-- First segment of the C6 example: start 0, end 5, pattern "A". -/
def segA : Segment := segOfStartEnd 0 5 "A"

/-- Second segment of the C6 example: start 5, end 10, pattern "B". -/
def segB : Segment := segOfStartEnd 5 10 "B"

/-- A timeline with a gap between its two segments, [0,1) and [5,6), and
a configured fallback pattern. -/
def tlGap : Timeline :=
  { segments := [segOfStartEnd 0 1 "story_pulse", segOfStartEnd 5 6 "story_pulse"]
    fallback_pattern_id := some "story_pulse" }

/-- Apply one tag event to the controller, discarding effects. -/
def applyEvent (env : Env) (c : Controller) : TagEvent → Controller
  | .detected r t => (on_tag_detected env c r t).1
  | .removed r => (on_tag_removed env c r).1

/-- Apply a sequence of tag events in order. -/
def processEvents (env : Env) : Controller → List TagEvent → Controller
  | c, [] => c
  | c, e :: rest => processEvents env (applyEvent env c e) rest

theorem set_state_fst (c : Controller) (st : StoryBoxState) :
    (set_state c st).1 = { c with state := st } := by
  unfold set_state
  split
  · rename_i h
    cases c
    subst h
    rfl
  · rfl

theorem set_state_snd (c : Controller) (st : StoryBoxState) :
    (set_state c st).2 = if st = c.state then [] else [.ledApplyState st] := by
  unfold set_state
  split <;> rename_i h <;> simp [h]

theorem character_name_preserves (env : Env) (c : Controller) (tagId : Nat) :
    (character_name env c tagId).2.slots = c.slots ∧
    (character_name env c tagId).2.state = c.state ∧
    (character_name env c tagId).2.session = c.session ∧
    (character_name env c tagId).2.pendingStopConfirm = c.pendingStopConfirm := by
  unfold character_name
  cases c.tagNames.lookup tagId with
  | some n => exact ⟨rfl, rfl, rfl, rfl⟩
  | none =>
    cases env.getCharacter tagId with
    | none => exact ⟨rfl, rfl, rfl, rfl⟩
    | some info => cases info.group_color <;> exact ⟨rfl, rfl, rfl, rfl⟩

theorem character_name_resolves (env : Env) (c : Controller) (tagId : Nat)
    (hc : cacheOk env c) :
    (character_name env c tagId).1 = nameOf env tagId ∧
    cacheOk env (character_name env c tagId).2 := by
  unfold character_name
  cases hl : c.tagNames.lookup tagId with
  | some n => exact ⟨hc tagId n hl, hc⟩
  | none =>
    cases hg : env.getCharacter tagId with
    | none =>
      refine ⟨?_, hc⟩
      unfold nameOf
      rw [hg]
    | some info =>
      have hname : info.name = nameOf env tagId := by
        unfold nameOf
        rw [hg]
      have hcache :
          ∀ t n, ((tagId, info.name) :: c.tagNames).lookup t = some n →
            n = nameOf env t := by
        intro t n h
        by_cases ht : t = tagId
        · subst ht
          simp [List.lookup] at h
          exact h ▸ hname
        · have hbe : (t == tagId) = false := beq_eq_false_iff_ne.mpr ht
          have : c.tagNames.lookup t = some n := by
            simpa [List.lookup, hbe] using h
          exact hc t n this
      cases info.group_color <;> exact ⟨hname.symm ▸ rfl, hcache⟩

theorem feedbackLoop_preserves (env : Env) (L : List (String × Nat)) :
    ∀ c : Controller,
      (feedbackLoop env L c).1.slots = c.slots ∧
      (feedbackLoop env L c).1.state = c.state ∧
      (feedbackLoop env L c).1.session = c.session ∧
      (feedbackLoop env L c).1.pendingStopConfirm = c.pendingStopConfirm := by
  induction L with
  | nil => intro c; exact ⟨rfl, rfl, rfl, rfl⟩
  | cons p rest ih =>
    intro c
    obtain ⟨readerId, groupIndex⟩ := p
    unfold feedbackLoop
    cases slotHeld c.slots readerId with
    | none => simpa using ih c
    | some tagId =>
      obtain ⟨hs, hst, hse, hp⟩ :=
        character_name_preserves env c tagId
      obtain ⟨ihs, ihst, ihse, ihp⟩ := ih (character_name env c tagId).2
      exact ⟨by simpa [ihs] using hs, by simpa [ihst] using hst,
        by simpa [ihse] using hse, by simpa [ihp] using hp⟩

theorem feedbackLoop_names_nil (env : Env) (L : List (String × Nat)) :
    ∀ c : Controller,
      ((feedbackLoop env L c).2.2 = [] ↔
        ∀ p ∈ L, slotHeld c.slots p.1 = none) := by
  induction L with
  | nil => intro c; simp [feedbackLoop]
  | cons p rest ih =>
    intro c
    obtain ⟨readerId, groupIndex⟩ := p
    unfold feedbackLoop
    cases hH : slotHeld c.slots readerId with
    | none =>
      simp only []
      rw [ih c]
      simp [hH]
    | some tagId =>
      simp only []
      constructor
      · intro h
        exact absurd h (by simp)
      · intro h
        have := h (readerId, groupIndex) (by simp)
        simp [hH] at this

theorem feedbackLoop_names (env : Env) (L : List (String × Nat)) :
    ∀ c : Controller, cacheOk env c →
      cacheOk env (feedbackLoop env L c).1 ∧
      (feedbackLoop env L c).2.2 =
        L.filterMap (fun p => (slotHeld c.slots p.1).map (nameOf env)) := by
  induction L with
  | nil => intro c hc; exact ⟨hc, rfl⟩
  | cons p rest ih =>
    intro c hc
    obtain ⟨readerId, groupIndex⟩ := p
    unfold feedbackLoop
    cases hH : slotHeld c.slots readerId with
    | none =>
      obtain ⟨ihc, ihn⟩ := ih c hc
      refine ⟨ihc, ?_⟩
      simp [List.filterMap_cons, hH, ihn]
    | some tagId =>
      obtain ⟨hname, hcache⟩ := character_name_resolves env c tagId hc
      obtain ⟨hslots, _, _, _⟩ := character_name_preserves env c tagId
      obtain ⟨ihc, ihn⟩ := ih (character_name env c tagId).2 hcache
      refine ⟨ihc, ?_⟩
      simp [List.filterMap_cons, hH, ihn, hslots, hname]

theorem upf_preserves (env : Env) (c : Controller)
    (hs : c.state = StoryBoxState.PREPARING_STORY) :
    (update_preparing_feedback env c).1.slots = c.slots ∧
    (update_preparing_feedback env c).1.state = c.state ∧
    (update_preparing_feedback env c).1.session.duration_mode =
      c.session.duration_mode ∧
    (update_preparing_feedback env c).1.session.story_audio_path =
      c.session.story_audio_path ∧
    (update_preparing_feedback env c).1.pendingStopConfirm =
      c.pendingStopConfirm ∧
    (update_preparing_feedback env c).1.session.characters =
      (feedbackLoop env orderedGroups c).2.2 := by
  unfold update_preparing_feedback
  rw [if_pos hs]
  obtain ⟨h1, h2, h3, h4⟩ := feedbackLoop_preserves env orderedGroups c
  refine ⟨h1, h2, ?_, ?_, h4, rfl⟩
  · show (feedbackLoop env orderedGroups c).1.session.duration_mode =
      c.session.duration_mode
    exact congrArg StorySession.duration_mode h3
  · show (feedbackLoop env orderedGroups c).1.session.story_audio_path =
      c.session.story_audio_path
    exact congrArg StorySession.story_audio_path h3

theorem upf_characters (env : Env) (c : Controller)
    (hs : c.state = StoryBoxState.PREPARING_STORY) (hc : cacheOk env c) :
    (update_preparing_feedback env c).1.session.characters =
      heldNames env c.slots ∧
    cacheOk env (update_preparing_feedback env c).1 := by
  unfold update_preparing_feedback
  rw [if_pos hs]
  obtain ⟨hcache, hnames⟩ := feedbackLoop_names env orderedGroups c hc
  exact ⟨hnames, hcache⟩

theorem allEmpty_iff_noTagsHeld (s : Slots) :
    (∀ p ∈ orderedGroups, slotHeld s p.1 = none) ↔ noTagsHeld s := by
  have ho : orderedGroups =
      [("reader4", 0), ("reader3", 1), ("reader1", 2), ("reader2", 3)] := rfl
  rw [ho]
  constructor
  · intro h
    exact ⟨h ("reader1", 2) (by simp), h ("reader2", 3) (by simp),
      h ("reader3", 1) (by simp), h ("reader4", 0) (by simp)⟩
  · rintro ⟨h1, h2, h3, h4⟩ p hp
    simp only [List.mem_cons, List.not_mem_nil, or_false] at hp
    rcases hp with hp | hp | hp | hp <;> subst hp
    · exact h4
    · exact h3
    · exact h1
    · exact h2

theorem start_preparing_fst (env : Env) (c : Controller) :
    (start_preparing env c).1 =
      (update_preparing_feedback env
        { c with
          state := StoryBoxState.PREPARING_STORY
          session :=
            { c.session with duration_mode := read_mode env } }).1 := by
  simp only [start_preparing]
  rw [set_state_fst]

theorem start_preparing_snd (env : Env) (c : Controller) :
    (start_preparing env c).2 =
      (set_state c StoryBoxState.PREPARING_STORY).2 ++
        play_system_prompt
          { c with
            state := StoryBoxState.PREPARING_STORY
            session := { c.session with duration_mode := read_mode env } }
          "system" "preparing_story" ++
        (update_preparing_feedback env
          { c with
            state := StoryBoxState.PREPARING_STORY
            session :=
              { c.session with duration_mode := read_mode env } }).2 := by
  simp only [start_preparing]
  rw [set_state_fst]

theorem start_preparing_post (env : Env) (c : Controller) :
    (start_preparing env c).1.state = StoryBoxState.PREPARING_STORY ∧
    (start_preparing env c).1.session.duration_mode = read_mode env ∧
    (start_preparing env c).1.session.story_audio_path =
      c.session.story_audio_path ∧
    (start_preparing env c).1.slots = c.slots ∧
    ((start_preparing env c).1.session.characters = [] ↔ noTagsHeld c.slots) ∧
    (Effect.ledApplyState StoryBoxState.PREPARING_STORY ∈
        (start_preparing env c).2 ∨
      c.state = StoryBoxState.PREPARING_STORY) := by
  obtain ⟨u1, u2, u3, u4, u5, u6⟩ :=
    upf_preserves env
      { c with
        state := StoryBoxState.PREPARING_STORY
        session := { c.session with duration_mode := read_mode env } } rfl
  rw [start_preparing_fst]
  refine ⟨u2, by exact u3, by exact u4, u1, ?_, ?_⟩
  · rw [u6, feedbackLoop_names_nil env orderedGroups]
    exact allEmpty_iff_noTagsHeld c.slots
  · by_cases h : c.state = StoryBoxState.PREPARING_STORY
    · exact Or.inr h
    · refine Or.inl ?_
      rw [start_preparing_snd, set_state_snd,
        if_neg (fun hh => h hh.symm)]
      simp

theorem on_story_finished_fst (env : Env) (c : Controller) :
    (on_story_finished env c).1 =
      (start_preparing env
        { c with
          session :=
            { characters := [], duration_mode := read_mode env
              story_audio_path := none }
          pendingStopConfirm := false
          state := StoryBoxState.IDLE_READY }).1 := by
  simp only [on_story_finished]
  rw [set_state_fst]

theorem on_story_finished_snd (env : Env) (c : Controller) :
    (on_story_finished env c).2 =
      Effect.ledClearTimeline ::
        ((set_state
            { c with
              session :=
                { characters := [], duration_mode := read_mode env
                  story_audio_path := none }
              pendingStopConfirm := false } StoryBoxState.IDLE_READY).2 ++
          (start_preparing env
            { c with
              session :=
                { characters := [], duration_mode := read_mode env
                  story_audio_path := none }
              pendingStopConfirm := false
              state := StoryBoxState.IDLE_READY }).2) := by
  simp only [on_story_finished]
  rw [set_state_fst]

/-- C2: the claimed invariant that an invalid selector reading never
replaces the previously valid stored duration mode fails in the code:
`start_preparing` copies `read_mode()` into the session unguarded, so a
controller whose stored mode is the valid "medium" ends up storing
"unknown" (not one of short/medium/long) when both selector inputs read
LOW.  The selector's own polling loop filters "unknown" before invoking
the change callback, and the session field is documented as
short/medium/long, so the spec states the intent and the code is a slip. -/
theorem C2_start_preparing_stores_unknown :
    cIdle.session.duration_mode = "medium" ∧
    read_mode envBad = "unknown" ∧
    (start_preparing envBad cIdle).1.session.duration_mode = "unknown" ∧
    (["short", "medium", "long"].contains "unknown") = false := by
  exact ⟨rfl, rfl, rfl, by decide⟩

/-- C6: on the timeline [{start 0, end 5, A}, {start 5, end 10, B}],
segment selection picks A at position 4.999, B at 5.0, B at 20 (the last
segment catches everything past its end), and A at −1, which the
playback-position clamp maps to 0 before selection. -/
theorem C6_selection_examples :
    select_segment_index [segA, segB] (current_time (some (4999 / 1000))) =
      some 0 ∧
    segA.pattern_id = "A" ∧
    select_segment_index [segA, segB] (current_time (some 5)) = some 1 ∧
    segB.pattern_id = "B" ∧
    select_segment_index [segA, segB] (current_time (some 20)) = some 1 ∧
    current_time (some (-1)) = 0 ∧
    select_segment_index [segA, segB] (current_time (some (-1))) = some 0 := by
  refine ⟨by decide, rfl, by decide, rfl, by decide, by decide, by decide⟩

/-- C8: with group_lengths = [6, 8, 8, 8] and 30 pixels, the computed
ranges are exactly [0,6), [6,14), [14,22), [22,30): they start at 0, are
contiguous (each stop equals the next start), end at 30, and have the
configured lengths 6, 8, 8, 8 (all at least 1), the final range taking
every remaining pixel. -/
theorem C8_group_partition :
    group_cycle_ranges [6, 8, 8, 8] 30 =
      [(0, 6), (6, 14), (14, 22), (22, 30)] ∧
    (group_cycle_ranges [6, 8, 8, 8] 30).head? = some (0, 6) ∧
    List.Chain' (fun a b : ℤ × ℤ => a.2 = b.1)
      (group_cycle_ranges [6, 8, 8, 8] 30) ∧
    (group_cycle_ranges [6, 8, 8, 8] 30).getLast? = some (22, 30) ∧
    (group_cycle_ranges [6, 8, 8, 8] 30).map (fun g => g.2 - g.1) =
      [6, 8, 8, 8] := by
  have h : group_cycle_ranges [6, 8, 8, 8] 30 =
      [(0, 6), (6, 14), (14, 22), (22, 30)] := by decide
  refine ⟨h, ?_, ?_, ?_, ?_⟩ <;> rw [h] <;> simp [List.chain'_cons]

/-- C10: while a story is playing, every prompt request is replaced by
the fixed ("system", "error") event, so no character-name, duration or
status prompt can play; in any other state the requested prompt plays
unchanged.  In particular a duration change during playback produces the
error prompt instead of the mode prompt. -/
theorem C10_playing_prompt_override (c : Controller)
    (category eventName : String) :
    (c.state = StoryBoxState.PLAYING_STORY →
      play_system_prompt c category eventName = [.prompt "system" "error"]) ∧
    (c.state ≠ StoryBoxState.PLAYING_STORY →
      play_system_prompt c category eventName = [.prompt category eventName]) ∧
    (c.state = StoryBoxState.PLAYING_STORY →
      (on_duration_change c eventName).2 = [.prompt "system" "error"]) := by
  unfold on_duration_change play_system_prompt
  refine ⟨fun h => by simp [h], fun h => by simp [h], fun h => by simp [h]⟩

/-- C10 witness: a character-name prompt requested during PLAYING_STORY
comes out as the error prompt; the same request in PREPARING_STORY plays
as requested. -/
theorem C10_witness :
    play_system_prompt cPlaying "characters" "char_7" =
      [.prompt "system" "error"] ∧
    play_system_prompt cPrepEmpty "characters" "char_7" =
      [.prompt "characters" "char_7"] := by
  exact ⟨(C10_playing_prompt_override cPlaying "characters" "char_7").1 rfl,
    (C10_playing_prompt_override cPrepEmpty "characters" "char_7").2.1
      (by decide)⟩

/-- C1 counterexample: a rotary click received while PLAYING_STORY moves
the controller to PAUSED, not CONFIRM_STOP, and plays no prompt at all
(the effects are exactly the button flash, the PAUSED LED state and the
audio pause). -/
theorem C1_click_while_playing_pauses :
    on_rotary_click env0 cPlaying =
      ({ cPlaying with state := StoryBoxState.PAUSED },
        [.ledEvent "play_button_press",
          .ledApplyState StoryBoxState.PAUSED, .audioPause]) ∧
    (decide (StoryBoxState.PAUSED = StoryBoxState.CONFIRM_STOP)) = false := by
  exact ⟨rfl, by decide⟩

/-- C4 counterexample: after stop-and-reset with tag 7 still held on
reader1, the immediate re-entry into PREPARING_STORY replays the held
slot, so the resulting session's character list is ["char_7"], not
empty. -/
theorem C4_reset_replays_held_tags :
    (stop_story_and_reset env0 cPlayingHeld).1.session.characters =
      ["char_7"] ∧
    (["char_7"] : List String).isEmpty = false := by
  exact ⟨rfl, by decide⟩

/-- C7 counterexample: at position 2 no segment interval of `tlGap`
([0,1) and [5,6)) contains the position and a fallback pattern is
configured, yet the frame renders the last segment (index 1) rather than
the fallback. -/
theorem C7_gap_renders_last_segment :
    findContainingIdx 2 tlGap.segments 0 = none ∧
    tlGap.fallback_pattern_id.isSome = true ∧
    renderChoice tlGap (some 2) = RenderChoice.segment 1 ∧
    (decide (RenderChoice.segment 1 = RenderChoice.fallback)) = false := by
  refine ⟨by decide, rfl, by decide, by decide⟩

/-- C9 counterexample: a tag-removed event for the known reader1 received
in PREPARING_STORY while reader1's slot is empty returns early: no
prompt, no LED change, no recompute (the effect list is empty). -/
theorem C9_removal_on_empty_slot_is_silent :
    on_tag_removed env0 cPrepEmpty "reader1" = (cPrepEmpty, []) ∧
    cPrepEmpty.state = StoryBoxState.PREPARING_STORY ∧
    slotGet cPrepEmpty.slots "reader1" = some none := by
  exact ⟨rfl, rfl, rfl⟩

theorem on_tag_detected_inv (env : Env) (c : Controller) (readerId : String)
    (tagId : Nat) (hs : c.state = StoryBoxState.PREPARING_STORY)
    (hc : cacheOk env c)
    (hch : c.session.characters = heldNames env c.slots) :
    (on_tag_detected env c readerId tagId).1.state =
      StoryBoxState.PREPARING_STORY ∧
    cacheOk env (on_tag_detected env c readerId tagId).1 ∧
    (on_tag_detected env c readerId tagId).1.session.characters =
      heldNames env (on_tag_detected env c readerId tagId).1.slots := by
  unfold on_tag_detected
  cases hg : slotGet c.slots readerId with
  | none => exact ⟨hs, hc, hch ▸ rfl⟩
  | some previous =>
    dsimp only
    rw [if_neg (fun hne => hne hs)]
    have hc1 : cacheOk env
        { c with slots := slotSet c.slots readerId (some tagId) } := hc
    have hs1 : ({ c with
        slots := slotSet c.slots readerId (some tagId) } :
        Controller).state = StoryBoxState.PREPARING_STORY := hs
    obtain ⟨hn, hcache2⟩ :=
      character_name_resolves env
        { c with slots := slotSet c.slots readerId (some tagId) } tagId hc1
    obtain ⟨hps, hpst, hpse, hppc⟩ :=
      character_name_preserves env
        { c with slots := slotSet c.slots readerId (some tagId) } tagId
    obtain ⟨u1, u2, _, _, _, _⟩ :=
      upf_preserves env
        (character_name env
          { c with slots := slotSet c.slots readerId (some tagId) } tagId).2
        (hpst.trans hs1)
    obtain ⟨w1, w2⟩ :=
      upf_characters env
        (character_name env
          { c with slots := slotSet c.slots readerId (some tagId) } tagId).2
        (hpst.trans hs1) hcache2
    refine ⟨?_, ?_, ?_⟩
    · show (update_preparing_feedback env
          (character_name env
            { c with slots := slotSet c.slots readerId (some tagId) }
            tagId).2).1.state = StoryBoxState.PREPARING_STORY
      exact u2.trans (hpst.trans hs1)
    · show cacheOk env
        (update_preparing_feedback env
          (character_name env
            { c with slots := slotSet c.slots readerId (some tagId) }
            tagId).2).1
      exact w2
    · show (update_preparing_feedback env
          (character_name env
            { c with slots := slotSet c.slots readerId (some tagId) }
            tagId).2).1.session.characters =
        heldNames env
          (update_preparing_feedback env
            (character_name env
              { c with slots := slotSet c.slots readerId (some tagId) }
              tagId).2).1.slots
      rw [w1, u1, hps]

theorem on_tag_removed_inv (env : Env) (c : Controller) (readerId : String)
    (hs : c.state = StoryBoxState.PREPARING_STORY) (hc : cacheOk env c)
    (hch : c.session.characters = heldNames env c.slots) :
    (on_tag_removed env c readerId).1.state =
      StoryBoxState.PREPARING_STORY ∧
    cacheOk env (on_tag_removed env c readerId).1 ∧
    (on_tag_removed env c readerId).1.session.characters =
      heldNames env (on_tag_removed env c readerId).1.slots := by
  unfold on_tag_removed
  cases hg : slotGet c.slots readerId with
  | none => exact ⟨hs, hc, hch ▸ rfl⟩
  | some previous =>
    cases previous with
    | none => exact ⟨hs, hc, hch ▸ rfl⟩
    | some tagId =>
      dsimp only
      rw [if_neg (fun hne => hne hs)]
      have hc1 : cacheOk env
          { c with slots := slotSet c.slots readerId none } := hc
      have hs1 : ({ c with
          slots := slotSet c.slots readerId none } :
          Controller).state = StoryBoxState.PREPARING_STORY := hs
      obtain ⟨u1, u2, _, _, _, _⟩ :=
        upf_preserves env
          { c with slots := slotSet c.slots readerId none } hs1
      obtain ⟨w1, w2⟩ :=
        upf_characters env
          { c with slots := slotSet c.slots readerId none } hs1 hc1
      refine ⟨?_, ?_, ?_⟩
      · show (update_preparing_feedback env
            { c with slots := slotSet c.slots readerId none }).1.state =
          StoryBoxState.PREPARING_STORY
        exact u2.trans hs1
      · show cacheOk env
          (update_preparing_feedback env
            { c with slots := slotSet c.slots readerId none }).1
        exact w2
      · show (update_preparing_feedback env
            { c with
              slots := slotSet c.slots readerId none }).1.session.characters =
          heldNames env
            (update_preparing_feedback env
              { c with slots := slotSet c.slots readerId none }).1.slots
        rw [w1, u1]

theorem processEvents_inv (env : Env) (events : List TagEvent) :
    ∀ c : Controller,
      c.state = StoryBoxState.PREPARING_STORY → cacheOk env c →
      c.session.characters = heldNames env c.slots →
      (processEvents env c events).state = StoryBoxState.PREPARING_STORY ∧
      cacheOk env (processEvents env c events) ∧
      (processEvents env c events).session.characters =
        heldNames env (processEvents env c events).slots := by
  induction events with
  | nil => intro c hs hc hch; exact ⟨hs, hc, hch⟩
  | cons e rest ih =>
    intro c hs hc hch
    cases e with
    | detected r t =>
      obtain ⟨h1, h2, h3⟩ := on_tag_detected_inv env c r t hs hc hch
      exact ih (on_tag_detected env c r t).1 h1 h2 h3
    | removed r =>
      obtain ⟨h1, h2, h3⟩ := on_tag_removed_inv env c r hs hc hch
      exact ih (on_tag_removed env c r).1 h1 h2 h3

/-- C5: starting from any PREPARING_STORY controller whose cached names
agree with the provider and whose character list matches the held slots,
after any sequence of tag-detected / tag-removed events the session's
active character list equals the names of the tags on currently-held
readers ordered by ascending configured group index — a function of the
final slot contents only, hence independent of the arrival order. -/
theorem C5_active_list_ordered (env : Env) (c : Controller)
    (events : List TagEvent)
    (hs : c.state = StoryBoxState.PREPARING_STORY) (hc : cacheOk env c)
    (hch : c.session.characters = heldNames env c.slots) :
    (processEvents env c events).session.characters =
      heldNames env (processEvents env c events).slots :=
  (processEvents_inv env events c hs hc hch).2.2

/-- C5 witness: a concrete event sequence (tags placed on reader1 and
reader3, then reader1 removed) evaluated from the empty preparing
controller. -/
theorem C5_witness :
    (processEvents env0 cPrepEmpty
      [TagEvent.detected "reader1" 7, TagEvent.detected "reader3" 9,
        TagEvent.removed "reader1"]).session.characters =
      heldNames env0
        (processEvents env0 cPrepEmpty
          [TagEvent.detected "reader1" 7, TagEvent.detected "reader3" 9,
            TagEvent.removed "reader1"]).slots :=
  C5_active_list_ordered env0 cPrepEmpty
    [TagEvent.detected "reader1" 7, TagEvent.detected "reader3" 9,
      TagEvent.removed "reader1"] rfl
    (fun t n h => by simp [List.lookup] at h) rfl

theorem upf_snd (env : Env) (c : Controller)
    (hs : c.state = StoryBoxState.PREPARING_STORY) :
    (update_preparing_feedback env c).2 =
      (feedbackLoop env orderedGroups c).2.1 := by
  unfold update_preparing_feedback
  rw [if_pos hs]

theorem mem_orderedGroups_of_mem (p : String × Nat)
    (h : p ∈ readerToGroup) : p ∈ orderedGroups := by
  have ho : orderedGroups =
      [("reader4", 0), ("reader3", 1), ("reader1", 2), ("reader2", 3)] := rfl
  rw [ho]
  simp only [readerToGroup, List.mem_cons, List.not_mem_nil, or_false] at h
  rcases h with h | h | h | h <;> subst h <;> simp

theorem slotHeld_slotSet_none (s : Slots) (readerId : String) (g : Nat)
    (h : (readerId, g) ∈ readerToGroup) :
    slotHeld (slotSet s readerId none) readerId = none := by
  simp only [readerToGroup, List.mem_cons, List.not_mem_nil, or_false] at h
  rcases h with h | h | h | h <;>
    rw [show readerId = (readerId, g).1 from rfl, h] <;> rfl

theorem feedbackLoop_clear_mem (env : Env) (readerId : String) (g : Nat)
    (L : List (String × Nat)) :
    ∀ c : Controller, (readerId, g) ∈ L →
      slotHeld c.slots readerId = none →
      Effect.ledClearGroupColor g ∈ (feedbackLoop env L c).2.1 := by
  induction L with
  | nil => intro c h _; simp at h
  | cons p rest ih =>
    intro c hmem hnone
    obtain ⟨r', g'⟩ := p
    unfold feedbackLoop
    rcases List.mem_cons.mp hmem with heq | htail
    · injection heq with h1 h2
      subst h1
      subst h2
      rw [hnone]
      simp
    · cases hH : slotHeld c.slots r' with
      | none =>
        exact List.mem_cons_of_mem _ (ih c htail hnone)
      | some t =>
        refine List.mem_cons_of_mem _ (ih _ htail ?_)
        rw [(character_name_preserves env c t).1]
        exact hnone

theorem slotGet_known (s : Slots) (readerId : String) (g : Nat)
    (h : (readerId, g) ∈ readerToGroup) :
    slotGet s readerId = some (slotHeld s readerId) := by
  simp only [readerToGroup, List.mem_cons, List.not_mem_nil, or_false] at h
  rcases h with h | h | h | h <;>
    rw [show readerId = (readerId, g).1 from rfl, h] <;> rfl

theorem on_tag_removed_held_preparing (env : Env) (c : Controller)
    (readerId : String) (g : Nat) (tagId : Nat)
    (hs : c.state = StoryBoxState.PREPARING_STORY)
    (hmem : (readerId, g) ∈ readerToGroup)
    (hheld : slotHeld c.slots readerId = some tagId)
    (hc : cacheOk env c) :
    (on_tag_removed env c readerId).1.slots =
      slotSet c.slots readerId none ∧
    (on_tag_removed env c readerId).1.state =
      StoryBoxState.PREPARING_STORY ∧
    (on_tag_removed env c readerId).1.session.characters =
      heldNames env (slotSet c.slots readerId none) ∧
    ∃ fx, (on_tag_removed env c readerId).2 =
      Effect.prompt "system" "tag_removed" :: fx ∧
      Effect.ledClearGroupColor g ∈ fx := by
  have hg : slotGet c.slots readerId = some (some tagId) := by
    unfold slotHeld at hheld
    cases hx : slotGet c.slots readerId with
    | none => rw [hx] at hheld; simp [Option.join] at hheld
    | some v =>
      rw [hx] at hheld
      simp [Option.join] at hheld
      rw [hheld]
  have hc1 : cacheOk env
      { c with slots := slotSet c.slots readerId none } := hc
  have hs1 : ({ c with
      slots := slotSet c.slots readerId none } :
      Controller).state = StoryBoxState.PREPARING_STORY := hs
  obtain ⟨u1, u2, _, _, _, _⟩ :=
    upf_preserves env { c with slots := slotSet c.slots readerId none } hs1
  obtain ⟨w1, _⟩ :=
    upf_characters env { c with slots := slotSet c.slots readerId none }
      hs1 hc1
  unfold on_tag_removed
  rw [hg]
  dsimp only
  rw [if_neg (fun hne => hne hs)]
  refine ⟨u1, u2.trans hs1, ?_, ?_⟩
  · rw [w1]
  · refine ⟨(update_preparing_feedback env
      { c with slots := slotSet c.slots readerId none }).2, ?_, ?_⟩
    · unfold play_system_prompt
      rw [if_neg (by rw [show ({ c with
          slots := slotSet c.slots readerId none } :
          Controller).state = c.state from rfl, hs]; simp)]
      rfl
    · rw [upf_snd env _ hs1]
      exact feedbackLoop_clear_mem env readerId g orderedGroups
        { c with slots := slotSet c.slots readerId none }
        (mem_orderedGroups_of_mem _ hmem)
        (slotHeld_slotSet_none c.slots readerId g hmem)

theorem on_tag_removed_empty_slot (env : Env) (c : Controller)
    (readerId : String) (g : Nat)
    (hmem : (readerId, g) ∈ readerToGroup)
    (hnone : slotHeld c.slots readerId = none) :
    on_tag_removed env c readerId = (c, []) := by
  have hg : slotGet c.slots readerId = some none := by
    rw [slotGet_known c.slots readerId g hmem, hnone]
  unfold on_tag_removed
  rw [hg]

theorem on_tag_removed_outside_preparing (env : Env) (c : Controller)
    (readerId : String) (g : Nat) (tagId : Nat)
    (hst : c.state ≠ StoryBoxState.PREPARING_STORY)
    (hmem : (readerId, g) ∈ readerToGroup)
    (hheld : slotHeld c.slots readerId = some tagId) :
    on_tag_removed env c readerId =
      ({ c with slots := slotSet c.slots readerId none }, []) := by
  have hg : slotGet c.slots readerId = some (some tagId) := by
    rw [slotGet_known c.slots readerId g hmem, hheld]
  unfold on_tag_removed
  rw [hg]
  dsimp only
  rw [if_pos (fun hh => hst hh)]

/-- C9 amended, all three arms, for a known reader id: a tag-removed
event received in PREPARING_STORY while the slot holds a tag clears that
slot, plays the "tag removed" prompt, and recomputes the active
character list and group LED colors — in particular the removed reader's
group override ends up cleared; an event for a reader whose slot is
already empty does nothing at all (controller and effects unchanged);
and outside PREPARING_STORY the slot is cleared and nothing else changes
(log only). -/
theorem C9_tag_removed_amended (env : Env) (c : Controller)
    (readerId : String) (g : Nat) (tagId : Nat)
    (hmem : (readerId, g) ∈ readerToGroup) :
    (c.state = StoryBoxState.PREPARING_STORY →
      slotHeld c.slots readerId = some tagId → cacheOk env c →
      (on_tag_removed env c readerId).1.slots =
        slotSet c.slots readerId none ∧
      (on_tag_removed env c readerId).1.state =
        StoryBoxState.PREPARING_STORY ∧
      (on_tag_removed env c readerId).1.session.characters =
        heldNames env (slotSet c.slots readerId none) ∧
      ∃ fx, (on_tag_removed env c readerId).2 =
        Effect.prompt "system" "tag_removed" :: fx ∧
        Effect.ledClearGroupColor g ∈ fx) ∧
    (slotHeld c.slots readerId = none →
      on_tag_removed env c readerId = (c, [])) ∧
    (c.state ≠ StoryBoxState.PREPARING_STORY →
      slotHeld c.slots readerId = some tagId →
      on_tag_removed env c readerId =
        ({ c with slots := slotSet c.slots readerId none }, [])) :=
  ⟨fun hs hheld hc =>
      on_tag_removed_held_preparing env c readerId g tagId hs hmem hheld hc,
    fun hnone => on_tag_removed_empty_slot env c readerId g hmem hnone,
    fun hst hheld =>
      on_tag_removed_outside_preparing env c readerId g tagId hst hmem hheld⟩

/-- C9 witness: the three arms exercised concretely — removing the held
tag 7 from reader1 (group index 2) in the preparing controller
recomputes the character list; a removal on the empty reader2 slot in
the same state is a complete no-op; a removal of reader1's held tag
during playback clears only the slot. -/
theorem C9_witness :
    (on_tag_removed env0 cPrepHeld "reader1").1.session.characters =
      heldNames env0 (slotSet cPrepHeld.slots "reader1" none) ∧
    on_tag_removed env0 cPrepEmpty "reader2" = (cPrepEmpty, []) ∧
    on_tag_removed env0 cPlayingHeld "reader1" =
      ({ cPlayingHeld with
          slots := slotSet cPlayingHeld.slots "reader1" none }, []) :=
  ⟨((C9_tag_removed_amended env0 cPrepHeld "reader1" 2 7 (by decide)).1
      rfl rfl (fun t n h => by simp [List.lookup] at h)).2.2.1,
    (C9_tag_removed_amended env0 cPrepEmpty "reader2" 3 0 (by decide)).2.1
      rfl,
    (C9_tag_removed_amended env0 cPlayingHeld "reader1" 2 7
      (by decide)).2.2 (by decide) rfl⟩

/-- C1 amended: a primary-control (rotary click) press behaves as
follows: in PREPARING_STORY it invokes request-story; in PLAYING_STORY it
pauses playback and transitions to PAUSED, playing no prompt; in PAUSED
or CONFIRM_STOP it clears the pending-stop flag and resumes (back to
PLAYING_STORY); in every other state it changes neither state nor
session, only triggering the button-flash LED event. -/
theorem C1_rotary_click_amended (env : Env) (c : Controller) :
    on_rotary_click env c = rotaryClickSpec env c := by
  obtain ⟨st, se, pcf, tn, tc, sl⟩ := c
  cases st <;> rfl

/-- C3: invoking request-story in PREPARING_STORY with an empty active
character list leaves the controller completely unchanged apart from
playing the "no characters" error prompt: the state stays
PREPARING_STORY and the session is untouched. -/
theorem C3_request_story_empty (env : Env) (c : Controller)
    (hs : c.state = StoryBoxState.PREPARING_STORY)
    (hchars : c.session.characters = []) :
    request_story env c = (c, [.prompt "system" "no_characters"]) ∧
    (request_story env c).1.state = StoryBoxState.PREPARING_STORY ∧
    (request_story env c).1.session = c.session := by
  have h : request_story env c = (c, [.prompt "system" "no_characters"]) := by
    unfold request_story play_system_prompt
    rw [if_neg (by simp [hs]), if_pos hchars, if_neg (by simp [hs])]
  exact ⟨h, by rw [h]; exact hs, by rw [h]⟩

/-- C3 witness: the property evaluated on the concrete empty-session
controller in PREPARING_STORY. -/
theorem C3_witness :
    request_story env0 cPrepEmpty =
      (cPrepEmpty, [.prompt "system" "no_characters"]) :=
  (C3_request_story_empty env0 cPrepEmpty rfl rfl).1

/-- C4 amended: stop-and-reset and story-finished yield the same final
controller, with stop-and-reset additionally stopping playback first.
Both clear the audio path, reread the duration mode from the selector,
pass through IDLE_READY (when not already there) and immediately re-enter
PREPARING_STORY; the re-entry replays the still-held reader slots, so the
resulting character list is empty exactly when no reader holds a tag
(rather than unconditionally empty as the original claim stated). -/
theorem C4_reset_and_finish_agree (env : Env) (c : Controller) :
    stop_story_and_reset env c =
      ((on_story_finished env c).1,
        .audioStop :: (on_story_finished env c).2) ∧
    (on_story_finished env c).1.state = StoryBoxState.PREPARING_STORY ∧
    (on_story_finished env c).1.session.story_audio_path = none ∧
    (on_story_finished env c).1.session.duration_mode = read_mode env ∧
    ((on_story_finished env c).1.session.characters = [] ↔
      noTagsHeld c.slots) ∧
    (on_story_finished env c).1.slots = c.slots ∧
    (Effect.ledApplyState StoryBoxState.IDLE_READY ∈
        (on_story_finished env c).2 ∨
      c.state = StoryBoxState.IDLE_READY) ∧
    Effect.ledApplyState StoryBoxState.PREPARING_STORY ∈
      (on_story_finished env c).2 := by
  obtain ⟨p1, p2, p3, p4, p5, p6⟩ :=
    start_preparing_post env
      { c with
        session :=
          { characters := [], duration_mode := read_mode env
            story_audio_path := none }
        pendingStopConfirm := false
        state := StoryBoxState.IDLE_READY }
  refine ⟨rfl, ?_, ?_, ?_, ?_, ?_, ?_, ?_⟩
  · rw [on_story_finished_fst]; exact p1
  · rw [on_story_finished_fst]; exact p3
  · rw [on_story_finished_fst]; exact p2
  · rw [on_story_finished_fst]; exact p5
  · rw [on_story_finished_fst]; exact p4
  · by_cases h : c.state = StoryBoxState.IDLE_READY
    · exact Or.inr h
    · refine Or.inl ?_
      rw [on_story_finished_snd, set_state_snd,
        if_neg (fun hh => h hh.symm)]
      simp
  · rw [on_story_finished_snd]
    rcases p6 with h | h
    · exact List.mem_cons_of_mem _ (List.mem_append_right _ h)
    · exact absurd
        (show StoryBoxState.IDLE_READY = StoryBoxState.PREPARING_STORY from h)
        (by decide)

theorem selectAux_eq_findContainingIdx (t : ℚ) (L : List Segment) :
    ∀ idx : Nat, idx ≠ 0 → selectAux t L idx = findContainingIdx t L idx := by
  induction L with
  | nil => intro idx _; rfl
  | cons s rest ih =>
    intro idx hidx
    unfold selectAux findContainingIdx
    by_cases ht : t < s.start
    · have hcont : segContains s rest t = false := by
        simp only [segContains]
        rw [decide_eq_false (not_le.mpr ht)]
        simp
      rw [if_pos ht, if_neg hidx, hcont]
      simp only [Bool.false_eq_true, if_false]
      exact ih (idx + 1) (Nat.succ_ne_zero idx)
    · rw [if_neg ht]
      cases hE : segEndOf s rest with
      | none =>
        have hcont : segContains s rest t = true := by
          simp only [segContains, hE]
          rw [decide_eq_true (not_lt.mp ht)]
          simp
        rw [hcont]
        simp
      | some e =>
        by_cases he : t < e
        · have hcont : segContains s rest t = true := by
            simp only [segContains, hE]
            rw [decide_eq_true (not_lt.mp ht), decide_eq_true he]
            simp
          rw [hcont]
          simp [he]
        · have hcont : segContains s rest t = false := by
            simp only [segContains, hE]
            rw [decide_eq_false he]
            simp
          rw [hcont]
          simp only [Bool.false_eq_true, if_false, he]
          exact ih (idx + 1) (Nat.succ_ne_zero idx)

theorem select_eq_spec (segs : List Segment) (t : ℚ) :
    select_segment_index segs t = selectSpecFn segs t := by
  cases segs with
  | nil => rfl
  | cons s0 rest =>
    unfold select_segment_index selectSpecFn selectAux findContainingIdx
    dsimp only
    by_cases ht : t < s0.start
    · rw [if_pos ht, if_pos ht]
      simp
    · rw [if_neg ht, if_neg ht]
      cases hE : segEndOf s0 rest with
      | none =>
        have hcont : segContains s0 rest t = true := by
          simp only [segContains, hE]
          rw [decide_eq_true (not_lt.mp ht)]
          simp
        rw [hcont]
        simp
      | some e =>
        by_cases he : t < e
        · have hcont : segContains s0 rest t = true := by
            simp only [segContains, hE]
            rw [decide_eq_true (not_lt.mp ht), decide_eq_true he]
            simp
          rw [hcont]
          simp [he]
        · have hcont : segContains s0 rest t = false := by
            simp only [segContains, hE]
            rw [decide_eq_false he]
            simp
          rw [hcont]
          simp only [Bool.false_eq_true, if_false, he,
            selectAux_eq_findContainingIdx t rest 1 (Nat.one_ne_zero)]

theorem findContainingIdx_lt (t : ℚ) (L : List Segment) :
    ∀ idx j : Nat, findContainingIdx t L idx = some j →
      j < idx + L.length := by
  induction L with
  | nil => intro idx j h; simp [findContainingIdx] at h
  | cons s rest ih =>
    intro idx j h
    unfold findContainingIdx at h
    by_cases hc : segContains s rest t
    · rw [if_pos hc] at h
      injection h with h
      subst h
      simp
    · rw [if_neg hc] at h
      have := ih (idx + 1) j h
      simp only [List.length_cons]
      omega

theorem selectSpecFn_total (segs : List Segment) (t : ℚ)
    (hne : segs ≠ []) :
    ∃ j, selectSpecFn segs t = some j ∧ j < segs.length := by
  cases segs with
  | nil => exact absurd rfl hne
  | cons s0 rest =>
    unfold selectSpecFn
    dsimp only
    by_cases ht : t < s0.start
    · exact ⟨0, by rw [if_pos ht], by simp⟩
    · rw [if_neg ht]
      cases hF : findContainingIdx t (s0 :: rest) 0 with
      | none => exact ⟨(s0 :: rest).length - 1, rfl, by simp⟩
      | some j =>
        refine ⟨j, rfl, ?_⟩
        have := findContainingIdx_lt t (s0 :: rest) 0 j hF
        omega

/-- C7 amended: segment selection follows the claimed rule — a position
before the first segment's start selects the first segment, otherwise the
first segment whose `[start, end)` interval (end = explicit end, else
next start, else unbounded) contains the position — except that when no
interval contains the position the LAST segment is selected.  For a
non-empty timeline whose pattern ids are all known, a segment is
therefore always rendered; the fallback pattern (else black) can only
appear when the timeline has no segments or a segment's pattern fails to
build. -/
theorem C7_render_selects_segment (tl : Timeline) (position : Option ℚ)
    (hne : tl.segments ≠ [])
    (hknown : ∀ s ∈ tl.segments, s.pattern_id ∈ knownPatternIds) :
    select_segment_index tl.segments (current_time position) =
      selectSpecFn tl.segments (current_time position) ∧
    ∃ i, i < tl.segments.length ∧
      select_segment_index tl.segments (current_time position) = some i ∧
      renderChoice tl position = RenderChoice.segment i := by
  obtain ⟨j, hj, hjlt⟩ :=
    selectSpecFn_total tl.segments (current_time position) hne
  have hsel : select_segment_index tl.segments (current_time position) =
      some j := by
    rw [select_eq_spec]
    exact hj
  refine ⟨select_eq_spec _ _, j, hjlt, hsel, ?_⟩
  unfold renderChoice
  rw [hsel]
  dsimp only
  rw [List.get?_eq_get hjlt]
  dsimp only
  rw [if_pos (hknown _ (tl.segments.get_mem j hjlt))]

/-- C7 witness: on the gap timeline at position 2, the rendered frame is
a segment of the timeline (the last one), never the fallback. -/
theorem C7_witness :
    ∃ i, i < tlGap.segments.length ∧
      select_segment_index tlGap.segments (current_time (some 2)) = some i ∧
      renderChoice tlGap (some 2) = RenderChoice.segment i :=
  (C7_render_selects_segment tlGap (some 2) (by decide) (by decide)).2

end StoryBox
